import Mathlib

/-!
Shallow embedding of `arrow-array/src/builder/fixed_size_list_builder.rs`
(`FixedSizeListBuilder`), together with spec-modelled versions of its
external collaborators (`NullBufferBuilder` from `arrow-buffer`, the child
`ArrayBuilder`, and the finished `FixedSizeListArray` accessors), which are
not part of the sources under verification.

Rust's mutable methods become explicit state passing: a method
`fn f(&mut self) -> R` is embedded as `f : S → R × S`; a panicking
finalization becomes `Except FinishError`.  `i32`/`usize` values are
embedded as `Int`/`Nat`, with the `as usize` cast made explicit where the
source performs one.
-/

namespace Arrow

/-- Wrapping cast of an `i32` value (held as `Int`) to `usize` (held as
`Nat`), as performed by Rust's `as usize` on a 64-bit target. -/
def i32_as_usize (x : Int) : Nat := (x % (2 : Int) ^ 64).toNat

/-- Rust `usize::checked_div`: `none` exactly when the divisor is zero. -/
def checked_div (a b : Nat) : Option Nat := if b = 0 then none else some (a / b)

/-- Modelled from the spec: a type descriptor for child values
(`arrow_schema::DataType` is outside the verified sources); two concrete
types suffice for every behaviour the builder distinguishes. -/
inductive DType where
  | int32
  | int64
deriving DecidableEq

/-- Modelled from the spec: `arrow_schema::Field`
(`{name, child_type, nullable}`), outside the verified sources. -/
structure Field where
  name : String
  dtype : DType
  nullable : Bool
deriving DecidableEq

/-- Modelled from the spec: the finished immutable child array
(the source's `values_arr`/`values_data`), carrying its declared type and
flat value sequence; a `none` entry is a logical null. -/
structure ChildArray where
  dtype : DType
  vals : List (Option Int)
deriving DecidableEq

/-- Modelled from the spec: `ArrayData::null_count` of the child data —
the number of logical nulls in the element sequence. -/
def ChildArray.null_count (c : ChildArray) : Nat :=
  (c.vals.filter fun v => v.isNone).length

/-- Modelled from the spec: the `ElementBuilder` opaque capability
(a concrete `ArrayBuilder` such as `Int32Builder`, outside the verified
sources).  Its state is the accumulated flat value sequence plus the
builder's element type. -/
structure ElementBuilder where
  dtype : DType
  vals : List (Option Int)
deriving DecidableEq

/-- Modelled from the spec: `ArrayBuilder::len`. -/
def ElementBuilder.len (b : ElementBuilder) : Nat := b.vals.length

/-- Modelled from the spec: `append_value(v)` on the child builder. -/
def ElementBuilder.append_value (b : ElementBuilder) (v : Int) : ElementBuilder :=
  ⟨b.dtype, b.vals ++ [some v]⟩

/-- Modelled from the spec: `append_null()` on the child builder. -/
def ElementBuilder.append_null (b : ElementBuilder) : ElementBuilder :=
  ⟨b.dtype, b.vals ++ [none]⟩

/-- Modelled from the spec: destructive `ArrayBuilder::finish` — returns the
accumulated values as an immutable child array and resets the builder's
length to 0. -/
def ElementBuilder.finish (b : ElementBuilder) : ChildArray × ElementBuilder :=
  (⟨b.dtype, b.vals⟩, ⟨b.dtype, []⟩)

/-- Modelled from the spec: non-destructive `ArrayBuilder::finish_cloned` —
returns an equivalent child array without resetting state. -/
def ElementBuilder.finish_cloned (b : ElementBuilder) : ChildArray × ElementBuilder :=
  (⟨b.dtype, b.vals⟩, b)

/-- Modelled from the spec: `arrow_buffer::NullBufferBuilder` (the validity
tracker, outside the verified sources): one boolean per appended row, plus
the capacity reservation requested at construction. -/
structure NullBufferBuilder where
  capacity : Nat
  bits : List Bool
deriving DecidableEq

/-- Modelled from the spec: `NullBufferBuilder::new(capacity)` pre-reserves
`capacity` and holds no rows. -/
def NullBufferBuilder.new (capacity : Nat) : NullBufferBuilder := ⟨capacity, []⟩

/-- Modelled from the spec: `NullBufferBuilder::len` is the current row
count. -/
def NullBufferBuilder.len (b : NullBufferBuilder) : Nat := b.bits.length

/-- Modelled from the spec: `NullBufferBuilder::append(is_valid)` marks the
current row. -/
def NullBufferBuilder.append (b : NullBufferBuilder) (is_valid : Bool) : NullBufferBuilder :=
  ⟨b.capacity, b.bits ++ [is_valid]⟩

/-- Modelled from the spec: destructive `NullBufferBuilder::finish` —
materializes the validity bitmap and resets the row count to 0. -/
def NullBufferBuilder.finish (b : NullBufferBuilder) : List Bool × NullBufferBuilder :=
  (b.bits, ⟨b.capacity, []⟩)

/-- Modelled from the spec: non-destructive `NullBufferBuilder::finish_cloned`
— materializes an equivalent bitmap without resetting state. -/
def NullBufferBuilder.finish_cloned (b : NullBufferBuilder) : List Bool × NullBufferBuilder :=
  (b.bits, b)

/-- The failure modes of finalization.  In the source each is a panicking
`assert`; the embedding surfaces them as errors.  `lengthMismatch` carries
the values interpolated into the source's panic message: the actual child
length, `self.list_len` and the row count `len`. -/
inductive FinishError where
  | lengthMismatch (actual : Nat) (list_len : Int) (row_count : Nat)
  | typeMismatch (fieldType actualType : DType)
  | nullabilityViolation
deriving DecidableEq

/-- Modelled from the spec: the output `FixedSizeListArray` assembled by
`finish`/`finish_cloned` via `ArrayData::builder(FixedSizeList(field,
list_len)).len(len).add_child_data(values_data).nulls(nulls)`.  `nulls` is
the per-row validity bitmap (`true` = valid). -/
structure FixedSizeListArray where
  field : Field
  list_len : Int
  len : Nat
  values : ChildArray
  nulls : List Bool
deriving DecidableEq

/-- Modelled from the spec: `value_offset(row) = row * list_len`. -/
def FixedSizeListArray.value_offset (a : FixedSizeListArray) (row : Nat) : Nat :=
  row * i32_as_usize a.list_len

/-- Modelled from the spec: `value(row)` is the slice of the child array
covering the row, of length `list_len` starting at `value_offset(row)`. -/
def FixedSizeListArray.value (a : FixedSizeListArray) (row : Nat) : List (Option Int) :=
  ((a.values.vals).drop (row * i32_as_usize a.list_len)).take (i32_as_usize a.list_len)

/-- Modelled from the spec: `is_null(row)` reads the validity bitmap;
a row outside the bitmap counts as valid. -/
def FixedSizeListArray.is_null (a : FixedSizeListArray) (row : Nat) : Bool :=
  !(a.nulls.getD row true)

/-- Modelled from the spec: `null_count()` counts the invalid rows. -/
def FixedSizeListArray.null_count (a : FixedSizeListArray) : Nat :=
  (a.nulls.filter fun v => !v).length

/-- `FixedSizeListBuilder` — the struct of
`fixed_size_list_builder.rs` lines 66–71: a validity tracker, the owned
child builder, the fixed row width `list_len : i32`, and the optional field
override. -/
structure FixedSizeListBuilder where
  null_buffer_builder : NullBufferBuilder
  values_builder : ElementBuilder
  list_len : Int
  field : Option Field
deriving DecidableEq

/-- `FixedSizeListBuilder::with_capacity` (lines 88–95): pre-reserves
`capacity` in the validity tracker only; no field override. -/
def FixedSizeListBuilder.with_capacity (values_builder : ElementBuilder) (value_length : Int)
    (capacity : Nat) : FixedSizeListBuilder :=
  ⟨NullBufferBuilder.new capacity, values_builder, value_length, none⟩

/-- `FixedSizeListBuilder::new` (lines 76–83): the initial capacity is
`values_builder.len().checked_div(value_length as usize).unwrap_or_default()`. -/
def FixedSizeListBuilder.new (values_builder : ElementBuilder) (value_length : Int) :
    FixedSizeListBuilder :=
  let capacity := (checked_div values_builder.len (i32_as_usize value_length)).getD 0
  FixedSizeListBuilder.with_capacity values_builder value_length capacity

/-- `FixedSizeListBuilder::with_field` (lines 103–108). -/
def FixedSizeListBuilder.with_field (b : FixedSizeListBuilder) (f : Field) :
    FixedSizeListBuilder :=
  { b with field := some f }

/-- `ArrayBuilder::len` for the list builder (lines 131–133): the number of
array slots is the validity tracker's length. -/
def FixedSizeListBuilder.len (b : FixedSizeListBuilder) : Nat :=
  b.null_buffer_builder.len

/-- `FixedSizeListBuilder::value_length` (lines 159–161). -/
def FixedSizeListBuilder.value_length (b : FixedSizeListBuilder) : Int := b.list_len

/-- `FixedSizeListBuilder::append` (lines 164–167): delimits one row by
forwarding `is_valid` to the validity tracker. -/
def FixedSizeListBuilder.append (b : FixedSizeListBuilder) (is_valid : Bool) :
    FixedSizeListBuilder :=
  { b with null_buffer_builder := b.null_buffer_builder.append is_valid }

/-- `FixedSizeListBuilder::finish` (lines 170–213).  The evaluation order of
the source is kept: the row count is read first, the child builder is
destructively finished *before* the length assertion (so a length-mismatch
failure leaves the child builder reset but the validity tracker intact),
the validity tracker is destructively finished after it, and the field
checks run last.  Each panic becomes an `error` paired with the builder
state at the panic point. -/
def FixedSizeListBuilder.finish (b : FixedSizeListBuilder) :
    Except FinishError FixedSizeListArray × FixedSizeListBuilder :=
  let len := b.len
  let p := b.values_builder.finish
  let values_arr := p.1
  let b1 := { b with values_builder := p.2 }
  if values_arr.vals.length ≠ len * i32_as_usize b.list_len then
    (.error (.lengthMismatch values_arr.vals.length b.list_len len), b1)
  else
    let q := b1.null_buffer_builder.finish
    let nulls := q.1
    let b2 := { b1 with null_buffer_builder := q.2 }
    match b.field with
    | some f =>
      if f.dtype ≠ values_arr.dtype then
        (.error (.typeMismatch f.dtype values_arr.dtype), b2)
      else if f.nullable = false ∧ values_arr.null_count ≠ 0 then
        (.error .nullabilityViolation, b2)
      else
        (.ok ⟨f, b.list_len, len, values_arr, nulls⟩, b2)
    | none =>
      (.ok ⟨⟨"item", values_arr.dtype, true⟩, b.list_len, len, values_arr, nulls⟩, b2)

/-- `FixedSizeListBuilder::finish_cloned` (lines 216–259): identical to
`finish` except that both collaborators are finalized with their
non-destructive `finish_cloned` operations; the `&self` receiver is embedded
by threading the state the cloned operations return. -/
def FixedSizeListBuilder.finish_cloned (b : FixedSizeListBuilder) :
    Except FinishError FixedSizeListArray × FixedSizeListBuilder :=
  let len := b.len
  let p := b.values_builder.finish_cloned
  let values_arr := p.1
  let b1 := { b with values_builder := p.2 }
  if values_arr.vals.length ≠ len * i32_as_usize b.list_len then
    (.error (.lengthMismatch values_arr.vals.length b.list_len len), b1)
  else
    let q := b1.null_buffer_builder.finish_cloned
    let nulls := q.1
    let b2 := { b1 with null_buffer_builder := q.2 }
    match b.field with
    | some f =>
      if f.dtype ≠ values_arr.dtype then
        (.error (.typeMismatch f.dtype values_arr.dtype), b2)
      else if f.nullable = false ∧ values_arr.null_count ≠ 0 then
        (.error .nullabilityViolation, b2)
      else
        (.ok ⟨f, b.list_len, len, values_arr, nulls⟩, b2)
    | none =>
      (.ok ⟨⟨"item", values_arr.dtype, true⟩, b.list_len, len, values_arr, nulls⟩, b2)

/-- One caller-visible mutation step between finalizations: a child-value
append or a null append through the `values()` accessor, or a row delimiter
`append(is_valid)`. -/
inductive BuilderAction where
  | appendValue (v : Int)
  | appendNull
  | appendRow (is_valid : Bool)
deriving DecidableEq

/-- Apply one mutation step to the builder. -/
def FixedSizeListBuilder.applyAction (b : FixedSizeListBuilder) :
    BuilderAction → FixedSizeListBuilder
  | .appendValue v => { b with values_builder := b.values_builder.append_value v }
  | .appendNull => { b with values_builder := b.values_builder.append_null }
  | .appendRow is_valid => b.append is_valid

/-- Run a sequence of mutation steps. -/
def FixedSizeListBuilder.run (b : FixedSizeListBuilder) (acts : List BuilderAction) :
    FixedSizeListBuilder :=
  acts.foldl FixedSizeListBuilder.applyAction b

/-- The `is_valid` flags of the `append(is_valid)` calls in a step
sequence, in order. -/
def validFlags (acts : List BuilderAction) : List Bool :=
  acts.filterMap fun a =>
    match a with
    | .appendRow is_valid => some is_valid
    | _ => none

/-- The child values contributed by a step sequence, in order (`none` for a
null append). -/
def childVals (acts : List BuilderAction) : List (Option Int) :=
  acts.filterMap fun a =>
    match a with
    | .appendValue v => some (some v)
    | .appendNull => some none
    | .appendRow _ => none

/-- The builder state after both collaborators have been destructively
finished: child values gone, validity tracker emptied; `list_len` and the
field override survive. -/
def FixedSizeListBuilder.resetBoth (b : FixedSizeListBuilder) : FixedSizeListBuilder :=
  { b with values_builder := ⟨b.values_builder.dtype, []⟩,
           null_buffer_builder := ⟨b.null_buffer_builder.capacity, []⟩ }

theorem run_cons (b : FixedSizeListBuilder) (a : BuilderAction) (acts : List BuilderAction) :
    FixedSizeListBuilder.run b (a :: acts) =
      FixedSizeListBuilder.run (b.applyAction a) acts := rfl

/-- Running a step sequence appends the row flags to the validity tracker
and the contributed child values to the child builder, and touches nothing
else. -/
theorem run_spec (acts : List BuilderAction) : ∀ b : FixedSizeListBuilder,
    FixedSizeListBuilder.run b acts =
      ⟨⟨b.null_buffer_builder.capacity, b.null_buffer_builder.bits ++ validFlags acts⟩,
       ⟨b.values_builder.dtype, b.values_builder.vals ++ childVals acts⟩,
       b.list_len, b.field⟩ := by
  induction acts with
  | nil => intro b; simp [FixedSizeListBuilder.run, validFlags, childVals]
  | cons a acts ih =>
    intro b
    rw [run_cons, ih]
    cases a <;>
      simp [FixedSizeListBuilder.applyAction, FixedSizeListBuilder.append,
        NullBufferBuilder.append, ElementBuilder.append_value, ElementBuilder.append_null,
        validFlags, childVals]

theorem finish_err_len (b : FixedSizeListBuilder)
    (h : b.values_builder.vals.length ≠ b.len * i32_as_usize b.list_len) :
    b.finish = (.error (.lengthMismatch b.values_builder.vals.length b.list_len b.len),
      { b with values_builder := ⟨b.values_builder.dtype, []⟩ }) := by
  simp [FixedSizeListBuilder.finish, ElementBuilder.finish, h]

theorem finish_none_ok (b : FixedSizeListBuilder)
    (h : b.values_builder.vals.length = b.len * i32_as_usize b.list_len)
    (hf : b.field = none) :
    b.finish = (.ok ⟨⟨"item", b.values_builder.dtype, true⟩, b.list_len, b.len,
      ⟨b.values_builder.dtype, b.values_builder.vals⟩, b.null_buffer_builder.bits⟩,
      b.resetBoth) := by
  simp [FixedSizeListBuilder.finish, ElementBuilder.finish, NullBufferBuilder.finish, h, hf,
    FixedSizeListBuilder.resetBoth]

theorem finish_some_type_err (b : FixedSizeListBuilder) (f : Field)
    (h : b.values_builder.vals.length = b.len * i32_as_usize b.list_len)
    (hf : b.field = some f) (ht : f.dtype ≠ b.values_builder.dtype) :
    b.finish = (.error (.typeMismatch f.dtype b.values_builder.dtype), b.resetBoth) := by
  simp [FixedSizeListBuilder.finish, ElementBuilder.finish, NullBufferBuilder.finish, h, hf, ht,
    FixedSizeListBuilder.resetBoth]

theorem finish_some_null_err (b : FixedSizeListBuilder) (f : Field)
    (h : b.values_builder.vals.length = b.len * i32_as_usize b.list_len)
    (hf : b.field = some f) (ht : f.dtype = b.values_builder.dtype)
    (hn : f.nullable = false)
    (hc : (ChildArray.mk b.values_builder.dtype b.values_builder.vals).null_count ≠ 0) :
    b.finish = (.error .nullabilityViolation, b.resetBoth) := by
  simp [FixedSizeListBuilder.finish, ElementBuilder.finish, NullBufferBuilder.finish, h, hf, ht,
    hn, hc, FixedSizeListBuilder.resetBoth]

theorem finish_some_ok (b : FixedSizeListBuilder) (f : Field)
    (h : b.values_builder.vals.length = b.len * i32_as_usize b.list_len)
    (hf : b.field = some f) (ht : f.dtype = b.values_builder.dtype)
    (hok : f.nullable = false →
      (ChildArray.mk b.values_builder.dtype b.values_builder.vals).null_count = 0) :
    b.finish = (.ok ⟨f, b.list_len, b.len,
      ⟨b.values_builder.dtype, b.values_builder.vals⟩, b.null_buffer_builder.bits⟩,
      b.resetBoth) := by
  have hcond : ¬ (f.nullable = false ∧
      (ChildArray.mk b.values_builder.dtype b.values_builder.vals).null_count ≠ 0) := by
    rintro ⟨h1, h2⟩; exact h2 (hok h1)
  simp [FixedSizeListBuilder.finish, ElementBuilder.finish, NullBufferBuilder.finish, h, hf, ht,
    hcond, FixedSizeListBuilder.resetBoth]

/-- `finish_cloned` computes the same result as `finish` and returns the
builder unchanged: the cloned collaborator operations hand back their own
state, so the threaded state is the identity. -/
theorem finish_cloned_eq (b : FixedSizeListBuilder) :
    b.finish_cloned = ((b.finish).1, b) := by
  obtain ⟨nb, vb, ll, fld⟩ := b
  by_cases h1 : vb.vals.length = nb.bits.length * i32_as_usize ll
  · rcases fld with _ | f
    · simp [FixedSizeListBuilder.finish, FixedSizeListBuilder.finish_cloned,
        FixedSizeListBuilder.len, NullBufferBuilder.len,
        ElementBuilder.finish, ElementBuilder.finish_cloned,
        NullBufferBuilder.finish, NullBufferBuilder.finish_cloned, h1]
    · by_cases ht : f.dtype = vb.dtype
      · by_cases hn : f.nullable = false ∧
          (ChildArray.mk vb.dtype vb.vals).null_count ≠ 0
        · simp [FixedSizeListBuilder.finish, FixedSizeListBuilder.finish_cloned,
            FixedSizeListBuilder.len, NullBufferBuilder.len,
            ElementBuilder.finish, ElementBuilder.finish_cloned,
            NullBufferBuilder.finish, NullBufferBuilder.finish_cloned, h1, ht, hn]
        · simp [FixedSizeListBuilder.finish, FixedSizeListBuilder.finish_cloned,
            FixedSizeListBuilder.len, NullBufferBuilder.len,
            ElementBuilder.finish, ElementBuilder.finish_cloned,
            NullBufferBuilder.finish, NullBufferBuilder.finish_cloned, h1, ht, hn]
      · simp [FixedSizeListBuilder.finish, FixedSizeListBuilder.finish_cloned,
          FixedSizeListBuilder.len, NullBufferBuilder.len,
          ElementBuilder.finish, ElementBuilder.finish_cloned,
          NullBufferBuilder.finish, NullBufferBuilder.finish_cloned, h1, ht]
  · simp [FixedSizeListBuilder.finish, FixedSizeListBuilder.finish_cloned,
      FixedSizeListBuilder.len, NullBufferBuilder.len,
      ElementBuilder.finish, ElementBuilder.finish_cloned, h1]

/-- Inversion of a successful `finish`: everything the output value and the
residual builder state satisfy, plus the checks that must have passed. -/
theorem finish_ok_inv (b : FixedSizeListBuilder) (a : FixedSizeListArray)
    (b' : FixedSizeListBuilder) (h : b.finish = (.ok a, b')) :
    a.len = b.len ∧ a.list_len = b.list_len ∧
    a.values = ⟨b.values_builder.dtype, b.values_builder.vals⟩ ∧
    a.nulls = b.null_buffer_builder.bits ∧
    a.field = b.field.getD ⟨"item", b.values_builder.dtype, true⟩ ∧
    b.values_builder.vals.length = b.len * i32_as_usize b.list_len ∧
    b' = b.resetBoth ∧
    (∀ f, b.field = some f → f.dtype = b.values_builder.dtype ∧
      (f.nullable = false →
        (ChildArray.mk b.values_builder.dtype b.values_builder.vals).null_count = 0)) := by
  obtain ⟨nb, vb, ll, fld⟩ := b
  by_cases h1 : vb.vals.length = nb.bits.length * i32_as_usize ll
  · rcases fld with _ | f
    · rw [finish_none_ok _ h1 rfl] at h
      have ha := Except.ok.inj (congrArg Prod.fst h)
      have hb' := congrArg Prod.snd h
      subst ha
      subst hb'
      exact ⟨rfl, rfl, rfl, rfl, rfl, h1, rfl, fun f hf => nomatch hf⟩
    · by_cases ht : f.dtype = vb.dtype
      · by_cases hn : f.nullable = false ∧
          (ChildArray.mk vb.dtype vb.vals).null_count ≠ 0
        · rw [finish_some_null_err _ f h1 rfl ht hn.1 hn.2] at h
          simp at h
        · rw [finish_some_ok _ f h1 rfl ht (fun hnb => by
            by_contra hc; exact hn ⟨hnb, hc⟩)] at h
          have ha := Except.ok.inj (congrArg Prod.fst h)
          have hb' := congrArg Prod.snd h
          subst ha
          subst hb'
          refine ⟨rfl, rfl, rfl, rfl, rfl, h1, rfl, ?_⟩
          intro g hg
          obtain hg := Option.some.inj hg
          subst hg
          exact ⟨ht, fun hnb => by
            by_contra hc; exact hn ⟨hnb, hc⟩⟩
      · rw [finish_some_type_err _ f h1 rfl ht] at h
        simp at h
  · rw [finish_err_len _ h1] at h
    simp at h

/-- When the length check passes, no run of `finish` produces a
`lengthMismatch` error (it either succeeds or fails a field check). -/
theorem finish_fst_no_len_err (b : FixedSizeListBuilder)
    (h1 : b.values_builder.vals.length = b.len * i32_as_usize b.list_len) :
    ∀ x y z, (b.finish).1 ≠ .error (.lengthMismatch x y z) := by
  intro x y z
  obtain ⟨nb, vb, ll, fld⟩ := b
  rcases fld with _ | f
  · rw [finish_none_ok _ h1 rfl]; simp
  · by_cases ht : f.dtype = vb.dtype
    · by_cases hn : f.nullable = false ∧ (ChildArray.mk vb.dtype vb.vals).null_count ≠ 0
      · rw [finish_some_null_err _ f h1 rfl ht hn.1 hn.2]; simp
      · rw [finish_some_ok _ f h1 rfl ht (fun hnb => by
          by_contra hc; exact hn ⟨hnb, hc⟩)]; simp
    · rw [finish_some_type_err _ f h1 rfl ht]; simp

/-- Inversion of a `finish` that failed the length check: the reported data,
and the residual state with the child builder already consumed but the
validity tracker untouched. -/
theorem finish_len_err_inv (b : FixedSizeListBuilder) (x : Nat) (y : Int) (z : Nat)
    (b' : FixedSizeListBuilder)
    (h : b.finish = (.error (.lengthMismatch x y z), b')) :
    b.values_builder.vals.length ≠ b.len * i32_as_usize b.list_len ∧
    x = b.values_builder.vals.length ∧ y = b.list_len ∧ z = b.len ∧
    b' = { b with values_builder := ⟨b.values_builder.dtype, []⟩ } := by
  by_cases h1 : b.values_builder.vals.length = b.len * i32_as_usize b.list_len
  · exact absurd (congrArg Prod.fst h) (finish_fst_no_len_err b h1 x y z)
  · rw [finish_err_len b h1] at h
    have ha := Except.error.inj (congrArg Prod.fst h)
    have hb' := congrArg Prod.snd h
    obtain ⟨hx, hy, hz⟩ := FinishError.lengthMismatch.inj ha
    exact ⟨h1, hx.symm, hy.symm, hz.symm, hb'.symm⟩

/-- Slicing entirely inside the left part of an appended list ignores the
right part. -/
theorem take_drop_append_left {α : Type} (xs ys : List α) (k n : Nat)
    (h : k + n ≤ xs.length) :
    ((xs ++ ys).drop k).take n = (xs.drop k).take n := by
  rw [List.drop_append_of_le_length (by omega)]
  rw [List.take_append_of_le_length (by simp [List.length_drop]; omega)]

/-- C2: `finish` (and `finish_cloned`) fails with `LengthMismatch` — reporting
the actual child length, `list_len` and the row count — if and only if the
finalized child array's length differs from `row_count * list_len`; and when
that mismatch holds, no output value is produced by either finalization. -/
theorem finish_length_mismatch_iff (b : FixedSizeListBuilder) :
    ((b.finish).1 = .error (.lengthMismatch b.values_builder.vals.length b.list_len b.len) ↔
      b.values_builder.vals.length ≠ b.len * i32_as_usize b.list_len) ∧
    ((b.finish_cloned).1 = .error (.lengthMismatch b.values_builder.vals.length b.list_len b.len) ↔
      b.values_builder.vals.length ≠ b.len * i32_as_usize b.list_len) ∧
    (b.values_builder.vals.length ≠ b.len * i32_as_usize b.list_len →
      (∀ a, (b.finish).1 ≠ .ok a) ∧ (∀ a, (b.finish_cloned).1 ≠ .ok a)) := by
  rw [finish_cloned_eq b]
  by_cases h1 : b.values_builder.vals.length = b.len * i32_as_usize b.list_len
  · exact ⟨⟨fun h => absurd h (finish_fst_no_len_err b h1 _ _ _), fun hne => absurd h1 hne⟩,
      ⟨fun h => absurd h (finish_fst_no_len_err b h1 _ _ _), fun hne => absurd h1 hne⟩,
      fun hne => absurd h1 hne⟩
  · rw [finish_err_len b h1]
    refine ⟨⟨fun _ => h1, fun _ => ?_⟩, ⟨fun _ => h1, fun _ => ?_⟩,
      fun _ => ⟨fun a h => ?_, fun a h => ?_⟩⟩
    · rfl
    · rfl
    · exact nomatch h
    · exact nomatch h

/-- C5: `finish_cloned` returns exactly the value `finish` would return from
the same state, leaves the whole builder state unchanged, and therefore any
further appends act on the same state they would have acted on without the
snapshot. -/
theorem finish_cloned_agrees_and_preserves_state (b : FixedSizeListBuilder) :
    (b.finish_cloned).1 = (b.finish).1 ∧ (b.finish_cloned).2 = b ∧
    (∀ acts : List BuilderAction, ((b.finish_cloned).2).run acts = b.run acts) := by
  rw [finish_cloned_eq b]
  exact ⟨rfl, rfl, fun _ => rfl⟩

/-- C1: starting from a builder with no accumulated rows or child values and
no field override (a fresh construction or the state right after a `finish`),
any interleaving of child appends totalling exactly `list_len` values per
delimited row makes `finish` succeed, and the returned array's row count
equals the number of `append(is_valid)` calls made. -/
theorem finish_row_count_eq_append_count (b0 : FixedSizeListBuilder)
    (acts : List BuilderAction)
    (hbits : b0.null_buffer_builder.bits = [])
    (hvals : b0.values_builder.vals = [])
    (hfield : b0.field = none)
    (hsized : (childVals acts).length = (validFlags acts).length * i32_as_usize b0.list_len) :
    ∃ a b', (b0.run acts).finish = (.ok a, b') ∧ a.len = (validFlags acts).length := by
  rw [run_spec acts b0, hbits, hvals, hfield]
  simp only [List.nil_append]
  exact ⟨_, _, finish_none_ok _ hsized rfl, rfl⟩

/-- Witness for C1: three child values and one `append(true)` with
`list_len = 3` yield a one-row array. -/
theorem finish_row_count_eq_append_count_witness :
    ((FixedSizeListBuilder.new ⟨DType.int32, []⟩ 3).null_buffer_builder.bits = [] ∧
     (FixedSizeListBuilder.new ⟨DType.int32, []⟩ 3).values_builder.vals = [] ∧
     (FixedSizeListBuilder.new ⟨DType.int32, []⟩ 3).field = none ∧
     (childVals [.appendValue 0, .appendValue 1, .appendValue 2, .appendRow true]).length =
       (validFlags [.appendValue 0, .appendValue 1, .appendValue 2, .appendRow true]).length *
         i32_as_usize (FixedSizeListBuilder.new ⟨DType.int32, []⟩ 3).list_len) ∧
    (∃ a b', ((FixedSizeListBuilder.new ⟨DType.int32, []⟩ 3).run
        [.appendValue 0, .appendValue 1, .appendValue 2, .appendRow true]).finish =
        (.ok a, b') ∧
      a.len = (validFlags [.appendValue 0, .appendValue 1, .appendValue 2,
        .appendRow true]).length) :=
  ⟨⟨rfl, rfl, rfl, by decide⟩,
    finish_row_count_eq_append_count _ _ rfl rfl rfl (by decide)⟩

/-- C3: every array successfully returned by `finish` or `finish_cloned` has
an element sequence of length `row_count * list_len` and a validity bitmap of
length `row_count`. -/
theorem finish_value_invariants (b : FixedSizeListBuilder) (a : FixedSizeListArray)
    (h : (∃ b', b.finish = (.ok a, b')) ∨ (∃ b', b.finish_cloned = (.ok a, b'))) :
    a.values.vals.length = a.len * i32_as_usize a.list_len ∧ a.nulls.length = a.len := by
  have hok : ∃ b', b.finish = (.ok a, b') := by
    rcases h with h | ⟨bc, h⟩
    · exact h
    · rcases hfe : b.finish with ⟨r, s⟩
      rw [finish_cloned_eq b, hfe] at h
      have hr : r = .ok a := congrArg Prod.fst h
      exact ⟨s, by rw [hr]⟩
  obtain ⟨b2, hfin⟩ := hok
  obtain ⟨hlen, hll, hvalues, hnulls, -, hsz, -, -⟩ := finish_ok_inv b a b2 hfin
  constructor
  · rw [hvalues, hlen, hll]
    exact hsz
  · rw [hnulls, hlen]
    rfl

/-- Witness for C3: a two-row array with `list_len = 2`. -/
theorem finish_value_invariants_witness :
    ((∃ b', (FixedSizeListBuilder.mk ⟨0, [true, false]⟩ ⟨DType.int32, [some 1, some 2, none, none]⟩ 2 none).finish =
        (.ok ⟨⟨"item", DType.int32, true⟩, 2, 2, ⟨DType.int32, [some 1, some 2, none, none]⟩,
          [true, false]⟩, b')) ∨
      (∃ b', (FixedSizeListBuilder.mk ⟨0, [true, false]⟩ ⟨DType.int32, [some 1, some 2, none, none]⟩ 2 none).finish_cloned =
        (.ok ⟨⟨"item", DType.int32, true⟩, 2, 2, ⟨DType.int32, [some 1, some 2, none, none]⟩,
          [true, false]⟩, b'))) ∧
    ((FixedSizeListArray.mk ⟨"item", DType.int32, true⟩ 2 2
        ⟨DType.int32, [some 1, some 2, none, none]⟩ [true, false]).values.vals.length =
      (FixedSizeListArray.mk ⟨"item", DType.int32, true⟩ 2 2
        ⟨DType.int32, [some 1, some 2, none, none]⟩ [true, false]).len *
        i32_as_usize (FixedSizeListArray.mk ⟨"item", DType.int32, true⟩ 2 2
          ⟨DType.int32, [some 1, some 2, none, none]⟩ [true, false]).list_len ∧
     (FixedSizeListArray.mk ⟨"item", DType.int32, true⟩ 2 2
        ⟨DType.int32, [some 1, some 2, none, none]⟩ [true, false]).nulls.length =
      (FixedSizeListArray.mk ⟨"item", DType.int32, true⟩ 2 2
        ⟨DType.int32, [some 1, some 2, none, none]⟩ [true, false]).len) :=
  ⟨Or.inl ⟨FixedSizeListBuilder.mk ⟨0, []⟩ ⟨DType.int32, []⟩ 2 none, rfl⟩,
    finish_value_invariants
      (FixedSizeListBuilder.mk ⟨0, [true, false]⟩ ⟨DType.int32, [some 1, some 2, none, none]⟩
        2 none)
      (FixedSizeListArray.mk ⟨"item", DType.int32, true⟩ 2 2
        ⟨DType.int32, [some 1, some 2, none, none]⟩ [true, false])
      (Or.inl ⟨FixedSizeListBuilder.mk ⟨0, []⟩ ⟨DType.int32, []⟩ 2 none, rfl⟩)⟩

/-- C4: descriptor resolution at finalization, for both `finish` and
`finish_cloned` (given the length check passes): a present override whose
child type differs from the finished child's type fails with `TypeMismatch`;
a present override of matching type declaring `nullable = false` while the
child contains a null fails with `NullabilityViolation`; with no override a
default descriptor named `item`, nullable, with the child's type is
synthesized. -/
theorem finish_field_resolution (b : FixedSizeListBuilder)
    (hlen : b.values_builder.vals.length = b.len * i32_as_usize b.list_len) :
    (∀ f, b.field = some f → f.dtype ≠ b.values_builder.dtype →
      (b.finish).1 = .error (.typeMismatch f.dtype b.values_builder.dtype) ∧
      (b.finish_cloned).1 = .error (.typeMismatch f.dtype b.values_builder.dtype)) ∧
    (∀ f, b.field = some f → f.dtype = b.values_builder.dtype → f.nullable = false →
      (ChildArray.mk b.values_builder.dtype b.values_builder.vals).null_count ≠ 0 →
      (b.finish).1 = .error .nullabilityViolation ∧
      (b.finish_cloned).1 = .error .nullabilityViolation) ∧
    (b.field = none →
      ∃ a, (b.finish).1 = .ok a ∧ (b.finish_cloned).1 = .ok a ∧
        a.field = ⟨"item", b.values_builder.dtype, true⟩) := by
  refine ⟨fun f hf ht => ?_, fun f hf ht hn hc => ?_, fun hf => ?_⟩
  · have he := finish_some_type_err b f hlen hf ht
    rw [finish_cloned_eq b, he]
    exact ⟨rfl, rfl⟩
  · have he := finish_some_null_err b f hlen hf ht hn hc
    rw [finish_cloned_eq b, he]
    exact ⟨rfl, rfl⟩
  · have he := finish_none_ok b hlen hf
    rw [finish_cloned_eq b, he]
    exact ⟨_, rfl, rfl, rfl⟩

/-- Witness for C4: an `Int64` override over an `Int32` child fails both
finalizations with `TypeMismatch`. -/
theorem finish_field_resolution_witness :
    ((FixedSizeListBuilder.mk ⟨0, [true]⟩ ⟨DType.int32, [some 1]⟩ 1
        (some ⟨"list_item", DType.int64, true⟩)).finish).1 =
      .error (.typeMismatch DType.int64 DType.int32) ∧
    ((FixedSizeListBuilder.mk ⟨0, [true]⟩ ⟨DType.int32, [some 1]⟩ 1
        (some ⟨"list_item", DType.int64, true⟩)).finish_cloned).1 =
      .error (.typeMismatch DType.int64 DType.int32) :=
  (finish_field_resolution
    (FixedSizeListBuilder.mk ⟨0, [true]⟩ ⟨DType.int32, [some 1]⟩ 1
      (some ⟨"list_item", DType.int64, true⟩)) (by decide)).1
    ⟨"list_item", DType.int64, true⟩ rfl (by decide)

/-- C6: a `finish_cloned` snapshot followed by further appends and a later
successful `finish` yields an array whose leading rows — element slices and
validity flags alike — coincide with the snapshot's rows. -/
theorem finish_cloned_snapshot_rows_stable (b : FixedSizeListBuilder)
    (acts : List BuilderAction) (a1 a2 : FixedSizeListArray)
    (bs b2 : FixedSizeListBuilder)
    (h1 : b.finish_cloned = (.ok a1, bs))
    (h2 : (b.run acts).finish = (.ok a2, b2)) :
    ∀ row, row < a1.len →
      a2.value row = a1.value row ∧ a2.is_null row = a1.is_null row := by
  have h1f : b.finish = (.ok a1, (b.finish).2) := by
    rcases hfe : b.finish with ⟨r, s⟩
    rw [finish_cloned_eq b, hfe] at h1
    have hr : r = .ok a1 := congrArg Prod.fst h1
    rw [hr]
  obtain ⟨hlen1, hll1, hvalues1, hnulls1, -, hsz1, -, -⟩ := finish_ok_inv b a1 _ h1f
  obtain ⟨hlen2, hll2, hvalues2, hnulls2, -, -, -, -⟩ := finish_ok_inv (b.run acts) a2 b2 h2
  rw [run_spec acts b] at hlen2 hll2 hvalues2 hnulls2
  intro row hrow
  have hrowb : row < b.len := hlen1 ▸ hrow
  constructor
  · simp only [FixedSizeListArray.value]
    rw [hvalues2, hvalues1, hll2, hll1]
    refine take_drop_append_left _ _ _ _ ?_
    rw [hsz1, ← Nat.succ_mul]
    exact Nat.mul_le_mul hrowb (le_refl _)
  · simp only [FixedSizeListArray.is_null]
    rw [hnulls2, hnulls1]
    rw [List.getD_append _ _ _ _ hrowb]

/-- Witness for C6: snapshot after one row, append a second row, finish, and
compare row 0. -/
theorem finish_cloned_snapshot_rows_stable_witness :
    (FixedSizeListArray.mk ⟨"item", DType.int32, true⟩ 1 2
        ⟨DType.int32, [some 1, some 2]⟩ [true, false]).value 0 =
      (FixedSizeListArray.mk ⟨"item", DType.int32, true⟩ 1 1
        ⟨DType.int32, [some 1]⟩ [true]).value 0 ∧
    (FixedSizeListArray.mk ⟨"item", DType.int32, true⟩ 1 2
        ⟨DType.int32, [some 1, some 2]⟩ [true, false]).is_null 0 =
      (FixedSizeListArray.mk ⟨"item", DType.int32, true⟩ 1 1
        ⟨DType.int32, [some 1]⟩ [true]).is_null 0 :=
  finish_cloned_snapshot_rows_stable
    (FixedSizeListBuilder.mk ⟨0, [true]⟩ ⟨DType.int32, [some 1]⟩ 1 none)
    [.appendValue 2, .appendRow false]
    (FixedSizeListArray.mk ⟨"item", DType.int32, true⟩ 1 1 ⟨DType.int32, [some 1]⟩ [true])
    (FixedSizeListArray.mk ⟨"item", DType.int32, true⟩ 1 2
      ⟨DType.int32, [some 1, some 2]⟩ [true, false])
    (FixedSizeListBuilder.mk ⟨0, [true]⟩ ⟨DType.int32, [some 1]⟩ 1 none)
    (FixedSizeListBuilder.mk ⟨0, []⟩ ⟨DType.int32, []⟩ 1 none)
    rfl rfl 0 (by decide)

/-- C7: after a successful `finish` the builder's row count and the child
builder's length are both 0, and an immediate second `finish` with no new
appends succeeds with a zero-row array. -/
theorem finish_resets_builder (b : FixedSizeListBuilder) (a : FixedSizeListArray)
    (b' : FixedSizeListBuilder) (h : b.finish = (.ok a, b')) :
    b'.len = 0 ∧ b'.values_builder.vals.length = 0 ∧
    ∃ a2 b'', b'.finish = (.ok a2, b'') ∧ a2.len = 0 := by
  obtain ⟨-, -, -, -, -, -, hb', hfld⟩ := finish_ok_inv b a b' h
  subst hb'
  refine ⟨rfl, rfl, ?_⟩
  rcases hf : b.field with _ | f
  · exact ⟨_, _, finish_none_ok b.resetBoth (Nat.zero_mul _).symm
      (by simp [FixedSizeListBuilder.resetBoth, hf]), rfl⟩
  · obtain ⟨ht, -⟩ := hfld f hf
    exact ⟨_, _, finish_some_ok b.resetBoth f (Nat.zero_mul _).symm
      (by simp [FixedSizeListBuilder.resetBoth, hf]) ht (fun _ => rfl), rfl⟩

/-- Witness for C7: finishing a one-row builder resets it and a second
`finish` returns an empty array. -/
theorem finish_resets_builder_witness :
    (FixedSizeListBuilder.mk ⟨0, []⟩ ⟨DType.int32, []⟩ 1 none).len = 0 ∧
    (FixedSizeListBuilder.mk ⟨0, []⟩ ⟨DType.int32, []⟩ 1 none).values_builder.vals.length = 0 ∧
    ∃ a2 b'', (FixedSizeListBuilder.mk ⟨0, []⟩ ⟨DType.int32, []⟩ 1 none).finish =
      (.ok a2, b'') ∧ a2.len = 0 :=
  finish_resets_builder
    (FixedSizeListBuilder.mk ⟨0, [true]⟩ ⟨DType.int32, [some 7]⟩ 1 none)
    (FixedSizeListArray.mk ⟨"item", DType.int32, true⟩ 1 1 ⟨DType.int32, [some 7]⟩ [true])
    (FixedSizeListBuilder.mk ⟨0, []⟩ ⟨DType.int32, []⟩ 1 none)
    rfl

/-- C8: on any array produced by `finish` or `finish_cloned` from a builder
whose validity tracker started empty, `is_null(row)` is the negation of the
`is_valid` flag passed to the `append` call that delimited that row. -/
theorem is_null_matches_append_flags (b0 : FixedSizeListBuilder)
    (acts : List BuilderAction) (a : FixedSizeListArray) (b' : FixedSizeListBuilder)
    (hbits : b0.null_buffer_builder.bits = [])
    (h : (b0.run acts).finish = (.ok a, b') ∨ (b0.run acts).finish_cloned = (.ok a, b')) :
    ∀ row, row < a.len → a.is_null row = !((validFlags acts).getD row true) := by
  have hok : ∃ b2, (b0.run acts).finish = (.ok a, b2) := by
    rcases h with h | h
    · exact ⟨b', h⟩
    · rcases hfe : (b0.run acts).finish with ⟨r, s⟩
      rw [finish_cloned_eq _, hfe] at h
      have hr : r = .ok a := congrArg Prod.fst h
      exact ⟨s, by rw [hr]⟩
  obtain ⟨b2, hfin⟩ := hok
  obtain ⟨hlen, -, -, hnulls, -, -, -, -⟩ := finish_ok_inv _ a b2 hfin
  rw [run_spec acts b0] at hlen hnulls
  simp only [hbits, List.nil_append] at hlen hnulls
  intro row hrow
  simp only [FixedSizeListArray.is_null]
  rw [hnulls]

/-- Witness for C8: a single `append(false)` row read back as null. -/
theorem is_null_matches_append_flags_witness :
    (FixedSizeListArray.mk ⟨"item", DType.int32, true⟩ 1 1
        ⟨DType.int32, [some 5]⟩ [false]).is_null 0 =
      !((validFlags [.appendValue 5, .appendRow false]).getD 0 true) :=
  is_null_matches_append_flags
    (FixedSizeListBuilder.mk ⟨0, []⟩ ⟨DType.int32, []⟩ 1 none)
    [.appendValue 5, .appendRow false]
    (FixedSizeListArray.mk ⟨"item", DType.int32, true⟩ 1 1 ⟨DType.int32, [some 5]⟩ [false])
    (FixedSizeListBuilder.mk ⟨0, []⟩ ⟨DType.int32, []⟩ 1 none)
    rfl (Or.inl rfl) 0 (by decide)

/-- C9: `new` with `value_length = 0` does not fail — the guarded division
defaults the capacity to 0 — and for positive `value_length` (in `i32`
range) `new` equals `with_capacity` with capacity
`⌊values_builder.len / value_length⌋`. -/
theorem new_checked_capacity (vb : ElementBuilder) (L : Int)
    (h0 : 0 < L) (h31 : L < 2 ^ 31) :
    FixedSizeListBuilder.new vb 0 = FixedSizeListBuilder.with_capacity vb 0 0 ∧
    FixedSizeListBuilder.new vb L =
      FixedSizeListBuilder.with_capacity vb L (vb.vals.length / L.toNat) := by
  constructor
  · simp [FixedSizeListBuilder.new, checked_div, i32_as_usize]
  · have hL64 : i32_as_usize L = L.toNat := by
      unfold i32_as_usize
      rw [Int.emod_eq_of_lt (le_of_lt h0) (lt_trans h31 (by norm_num))]
    have hnz : L.toNat ≠ 0 := by omega
    simp [FixedSizeListBuilder.new, checked_div, hL64, hnz, ElementBuilder.len]

/-- Witness for C9: a child builder holding three values, `value_length = 2`,
capacity 1. -/
theorem new_checked_capacity_witness :
    FixedSizeListBuilder.new ⟨DType.int32, [some 1, some 2, none]⟩ 0 =
      FixedSizeListBuilder.with_capacity ⟨DType.int32, [some 1, some 2, none]⟩ 0 0 ∧
    FixedSizeListBuilder.new ⟨DType.int32, [some 1, some 2, none]⟩ 2 =
      FixedSizeListBuilder.with_capacity ⟨DType.int32, [some 1, some 2, none]⟩ 2
        ((ElementBuilder.mk DType.int32 [some 1, some 2, none]).vals.length / (2 : Int).toNat) :=
  new_checked_capacity ⟨DType.int32, [some 1, some 2, none]⟩ 2 (by decide) (by decide)

/-- C10: a `finish` aborted by the length mismatch has already consumed the
child builder (its values are gone) while the validity tracker still holds
every appended row; when the child builder was non-empty the builder state
has genuinely changed. -/
theorem failed_finish_partial_reset (b : FixedSizeListBuilder) (x : Nat) (y : Int) (z : Nat)
    (b' : FixedSizeListBuilder)
    (h : b.finish = (.error (.lengthMismatch x y z), b')) :
    b'.values_builder.vals = [] ∧ b'.null_buffer_builder = b.null_buffer_builder ∧
    b'.len = b.len ∧ (b.values_builder.vals ≠ [] → b' ≠ b) := by
  obtain ⟨-, -, -, -, hb'⟩ := finish_len_err_inv b x y z b' h
  subst hb'
  refine ⟨rfl, rfl, rfl, fun hne heq => hne ?_⟩
  have hv := congrArg (fun s => s.values_builder.vals) heq
  simpa using hv.symm

/-- Witness for C10: two child values against one row of width 1. -/
theorem failed_finish_partial_reset_witness :
    (FixedSizeListBuilder.mk ⟨0, [true]⟩ ⟨DType.int32, []⟩ 1 none).values_builder.vals = [] ∧
    (FixedSizeListBuilder.mk ⟨0, [true]⟩ ⟨DType.int32, []⟩ 1 none).null_buffer_builder =
      (FixedSizeListBuilder.mk ⟨0, [true]⟩ ⟨DType.int32, [some 1, some 2]⟩ 1
        none).null_buffer_builder ∧
    (FixedSizeListBuilder.mk ⟨0, [true]⟩ ⟨DType.int32, []⟩ 1 none).len =
      (FixedSizeListBuilder.mk ⟨0, [true]⟩ ⟨DType.int32, [some 1, some 2]⟩ 1 none).len ∧
    ((FixedSizeListBuilder.mk ⟨0, [true]⟩ ⟨DType.int32, [some 1, some 2]⟩ 1
        none).values_builder.vals ≠ [] →
      FixedSizeListBuilder.mk ⟨0, [true]⟩ ⟨DType.int32, []⟩ 1 none ≠
        FixedSizeListBuilder.mk ⟨0, [true]⟩ ⟨DType.int32, [some 1, some 2]⟩ 1 none) :=
  failed_finish_partial_reset
    (FixedSizeListBuilder.mk ⟨0, [true]⟩ ⟨DType.int32, [some 1, some 2]⟩ 1 none)
    2 1 1
    (FixedSizeListBuilder.mk ⟨0, [true]⟩ ⟨DType.int32, []⟩ 1 none)
    rfl

end Arrow
